import Mathlib

/-!
Verification of the openminicrew dispatch-and-routing core against its
natural-language specification.  The Python sources are shallowly embedded:
pure helpers become Lean functions, stateful code becomes explicit state
passing, and external collaborators (LLM providers, tool execution, OAuth)
become oracle parameters.  All definitions are executable.
-/

set_option autoImplicit false

namespace OpenMiniCrew

/-! ## Python string primitives

Models of the `str` operations used by the sources.  Whitespace is the ASCII
whitespace set recognised by Python's `str.strip` / `str.split` (the sources
only ever strip ASCII whitespace around commands).  `Char.toLower` matches
Python `str.lower` on the ASCII command tokens the code lowercases. -/

/-- The ASCII whitespace characters stripped by Python `str.strip()`. -/
def pyIsSpace (c : Char) : Bool :=
  c == ' ' || c == '\t' || c == '\n' || c == '\r' || c == '\x0b' || c == '\x0c'

/-- Python `str.strip()` on a character list. -/
def pyStripList (l : List Char) : List Char :=
  ((l.dropWhile pyIsSpace).reverse.dropWhile pyIsSpace).reverse

/-- Python `str.strip()`. -/
def pyStrip (s : String) : String :=
  String.mk (pyStripList s.toList)

/-- Python `str.lower()` (ASCII letters, which is all the code lowercases). -/
def pyLower (s : String) : String :=
  String.mk (s.toList.map Char.toLower)

/-- Python `s.split(None, 1)`: skip leading whitespace, take the first
whitespace-delimited token, skip the following whitespace run, and keep the
remainder verbatim. -/
def pySplitWs1 (l : List Char) : List (List Char) :=
  let l1 := l.dropWhile pyIsSpace
  match l1 with
  | [] => []
  | _ :: _ =>
    let tok := l1.takeWhile (fun c => !(pyIsSpace c))
    let rest := (l1.dropWhile (fun c => !(pyIsSpace c))).dropWhile pyIsSpace
    if rest.isEmpty then [tok] else [tok, rest]

/-- Python `s.startswith(p)`. -/
def pyStartsWith (s p : String) : Bool :=
  p.toList.isPrefixOf s.toList

/-- Python `hay in s` substring test (used by the router's error sniffing). -/
def pyContains (hay needle : String) : Bool :=
  hay.toList.tails.any (fun t => needle.toList.isPrefixOf t)

/-- Python slice `s[:n]`. -/
def pySlice (s : String) (n : Nat) : String :=
  String.mk (s.toList.take n)

/-! ## interfaces/telegram_common.py — `parse_command` -/

/-- `parse_command` from `interfaces/telegram_common.py`: strip the text; if it
starts with `/`, split off the first token (maxsplit 1), drop any `@botname`
suffix and lowercase it; otherwise return the empty command with the stripped
text as args. -/
def parse_command (text : String) : String × String :=
  let t := pyStrip text
  if pyStartsWith t "/" then
    let parts := pySplitWs1 t.toList
    let cmd := pyLower (String.mk ((parts.headD []).takeWhile (fun c => c != '@')))
    let args :=
      match parts with
      | _ :: a :: _ => String.mk a
      | _ => ""
    (cmd, args)
  else ("", t)

/-- The amended parsing contract, written from the spec's wording: for input
whose stripped form begins with `/`, the command is the first
whitespace-delimited token (lowercased, `@`-suffix dropped) and the args are
the remainder with surrounding whitespace removed; otherwise the command is
empty and the args are the stripped input. -/
def parse_command_amended (text : String) : String × String :=
  let s := pyStrip text
  if pyStartsWith s "/" then
    (pyLower (String.mk ((s.toList.takeWhile (fun c => !(pyIsSpace c))).takeWhile (fun c => c != '@'))),
     String.mk ((s.toList.dropWhile (fun c => !(pyIsSpace c))).dropWhile pyIsSpace))
  else ("", s)

/-! ## core/providers — provider data and registry

A provider (`core/providers/base.py` plus the concrete Claude/Gemini
providers) carries a name, a configured state fixed at construction (client
present iff the API key was set), and the `_auth_failed` attribute that
`LLMRouter.chat` sets (read through `getattr(..., '_auth_failed', False)`,
so it defaults to false).  `is_configured()` of both concrete providers
returns whether the client exists and does not consult `_auth_failed`.
The registry's `providers` dict is modelled as a list in registration
order with unique names. -/

structure Provider where
  name : String
  configured : Bool
  auth_failed : Bool
  deriving Repr, DecidableEq

/-- `ProviderRegistry.get_available` (`core/providers/registry.py`):
names of configured providers in registration order. -/
def get_available (regs : List Provider) : List String :=
  (regs.filter (fun p => p.configured)).map (fun p => p.name)

/-- `ProviderRegistry.get_fallback` (`core/providers/registry.py`): return the
preferred provider if present and configured, else the first configured
provider in registration order, else none.  Note the source checks only
`is_configured()`, never `_auth_failed`. -/
def get_fallback (regs : List Provider) (preferred : String) : Option Provider :=
  match regs.find? (fun p => p.name == preferred) with
  | some p => if p.configured then some p else regs.find? (fun p => p.configured)
  | none => regs.find? (fun p => p.configured)

/-- The amended resolve contract for C1, written from the spec's wording with
the auth-failed condition removed: the named provider is returned exactly when
it exists and is configured (its auth-failed mark is ignored); otherwise the
first configured provider in registration order (auth-failed ignored);
otherwise none. -/
def resolve_amended (regs : List Provider) (preferred : String) : Option Provider :=
  if regs.any (fun p => p.name == preferred && p.configured) then
    regs.find? (fun p => p.name == preferred && p.configured)
  else
    regs.find? (fun p => p.configured)

/-! ## core/llm.py — LLMRouter.chat -/

/-- A tool call returned by a provider: name plus keyword arguments. -/
structure ToolCall where
  name : String
  args : List (String × String)
  deriving Repr, DecidableEq

/-- The uniform chat result dict every provider returns. -/
structure ChatResp where
  content : String
  tool_call : Option ToolCall
  model : String
  token_used : Nat
  deriving Repr, DecidableEq

/-- Errors surfaced by `LLMRouter.chat`: a `ValueError` raised by the router
itself (its configuration errors) or a propagated provider exception carrying
the provider's error message. -/
inductive RouterErr where
  | valueError (msg : String)
  | providerError (msg : String)
  deriving Repr, DecidableEq

/-- The router's "no provider available" `ValueError` message. -/
def noProviderMsg : String :=
  "ไม่มี LLM provider ที่พร้อมใช้งาน — ตั้งค่า ANTHROPIC_API_KEY หรือ GEMINI_API_KEY ใน .env"

/-- The router's "bad API key and no other provider" `ValueError` message. -/
def badKeyMsg (name : String) : String :=
  "❌ " ++ name ++ " API key ไม่ถูกต้อง และไม่มี provider อื่นที่ใช้ได้\nกรุณาตรวจสอบ API key ใน .env"

/-- The router's error classification: the lowercased message indicates an
authentication failure.  Python's `and` binds tighter than `or`, so the
source condition groups as shown. -/
def is_auth_error (e : String) : Bool :=
  let s := pyLower e
  pyContains s "authentication" || pyContains s "401" ||
    (pyContains s "invalid" && pyContains s "api") || pyContains s "unauthorized"

/-- Setting `p._auth_failed = True` on the registry's provider object. -/
def markAuthFailed (regs : List Provider) (nm : String) : List Provider :=
  regs.map (fun q => if q.name == nm then { q with auth_failed := true } else q)

/-- The router's fallback loop: the first other provider (registration order)
that is configured and not auth-failed. -/
def firstAlternate (regs : List Provider) (nm : String) : Option Provider :=
  regs.find? (fun o => o.name != nm && o.configured && !o.auth_failed)

/-- A provider-behaviour oracle: the outcome of `provider.chat(...)` for the
fixed message list of one router call, per provider name.  An `Except.error`
carries `str(e)` of the raised exception. -/
def ProviderBeh := String → Except String ChatResp

/-- `LLMRouter.chat` (`core/llm.py`): resolve a provider via `get_fallback`;
on success return the provider's result; on an authentication-class error mark
the provider auth-failed and return the outcome of the first other configured,
non-auth-failed provider (its error, if any, propagates raw); raise the
router's `ValueError` when no provider resolves or no alternate exists;
re-raise non-authentication errors unchanged.  Returns the result together
with the updated registry state. -/
def routerChat (regs : List Provider) (beh : ProviderBeh) (preferred : String) :
    Except RouterErr ChatResp × List Provider :=
  match get_fallback regs preferred with
  | none => (Except.error (RouterErr.valueError noProviderMsg), regs)
  | some p =>
    match beh p.name with
    | Except.ok r => (Except.ok r, regs)
    | Except.error e =>
      if is_auth_error e then
        let regs2 := markAuthFailed regs p.name
        match firstAlternate regs2 p.name with
        | some o =>
          match beh o.name with
          | Except.ok r => (Except.ok r, regs2)
          | Except.error e2 => (Except.error (RouterErr.providerError e2), regs2)
        | none => (Except.error (RouterErr.valueError (badKeyMsg p.name)), regs2)
      else
        (Except.error (RouterErr.providerError e), regs)

/-- One router invocation as seen by the registry state: the provider
behaviours for that call plus the preferred name. -/
structure RouterCall where
  beh : ProviderBeh
  preferred : String

/-- The registry state after a sequence of `LLMRouter.chat` calls. -/
def runChats (calls : List RouterCall) (regs : List Provider) : List Provider :=
  match calls with
  | [] => regs
  | c :: cs => runChats cs (routerChat regs c.beh c.preferred).2

/-! ## tools/base.py and tools/registry.py

`BaseTool` declares class attributes `name`, `description`, `commands` — and
no `direct_output` attribute.  Concrete tools may declare `direct_output`
(places and traffic set it to `True`); on tools that do not declare it, the
attribute access `selected_tool.direct_output` in the dispatcher raises
`AttributeError`.  This presence-or-absence is modelled by
`direct_output : Option Bool` (`none` = attribute missing).  `pycls` is the
Python class name, which appears in the `AttributeError` text.  A tool's
execution behaviour is an oracle parameter, not part of this data. -/

structure Tool where
  name : String
  description : String
  commands : List String
  pycls : String
  direct_output : Option Bool
  spec_parameters : List (String × String)
  deriving Repr, DecidableEq

/-- The generic tool spec exported by `get_tool_spec` (name, description and
a parameter schema; the schema's JSON content is carried opaquely, no claim
inspects it). -/
structure ToolSpec where
  name : String
  description : String
  parameters : List (String × String)
  deriving Repr, DecidableEq

/-- `BaseTool.get_tool_spec` / its overrides: export name, description and
the tool's parameter schema. -/
def get_tool_spec (t : Tool) : ToolSpec :=
  { name := t.name, description := t.description, parameters := t.spec_parameters }

/-- The tool registry's two dicts (`tools` by name, `command_map` by command),
modelled as insertion-ordered lists with dict-update semantics. -/
structure ToolRegistry where
  tools : List Tool
  command_map : List (String × Tool)
  deriving Repr

/-- Python dict assignment `d[t.name] = t` on the `tools` dict. -/
def dictInsertTool (ts : List Tool) (t : Tool) : List Tool :=
  if ts.any (fun u => u.name == t.name) then
    ts.map (fun u => if u.name == t.name then t else u)
  else ts ++ [t]

/-- Python dict assignment `command_map[c] = t`. -/
def dictInsertCmd (m : List (String × Tool)) (c : String) (t : Tool) :
    List (String × Tool) :=
  if m.any (fun e => e.1 == c) then
    m.map (fun e => if e.1 == c then (c, t) else e)
  else m ++ [(c, t)]

/-- `ToolRegistry._register`: skip tools with an empty name; otherwise store
under the name and map every declared command to the tool. -/
def register_tool (r : ToolRegistry) (t : Tool) : ToolRegistry :=
  if t.name == "" then r
  else
    { tools := dictInsertTool r.tools t,
      command_map := t.commands.foldl (fun m c => dictInsertCmd m c t) r.command_map }

/-- `ToolRegistry.get_tool`. -/
def get_tool (r : ToolRegistry) (name : String) : Option Tool :=
  r.tools.find? (fun t => t.name == name)

/-- `ToolRegistry.get_by_command`. -/
def get_by_command (r : ToolRegistry) (cmd : String) : Option Tool :=
  (r.command_map.find? (fun e => e.1 == cmd)).map (fun e => e.2)

/-- `ToolRegistry.get_all_specs`. -/
def get_all_specs (r : ToolRegistry) : List ToolSpec :=
  r.tools.map get_tool_spec

/-- `ToolRegistry.get_help_text`. -/
def get_help_text (r : ToolRegistry) : String :=
  let lines0 := ["🤖 *OpenMiniCrew — คำสั่งทั้งหมด*\n", "📧 *อีเมล*"]
  let emailLines :=
    match r.tools.find? (fun t => t.name == "email_summary") with
    | some _ =>
      ["  /email — สรุปอีเมลวันนี้", "  /email 3d — ย้อนหลัง 3 วัน",
       "  /email 7d — ย้อนหลัง 7 วัน", "  /email 30d — ย้อนหลัง 30 วัน",
       "  /email force — สรุปใหม่ทั้งหมด", "  /email บัตรเครดิต — ค้นหาเรื่องที่สนใจ",
       "  /email from:ktc.co.th 7d — จากผู้ส่ง + ช่วงเวลา"]
    | none => []
  let others := r.tools.filter (fun t => t.name != "email_summary")
  let otherLines :=
    if others.isEmpty then []
    else "\n🔧 *เครื่องมืออื่นๆ*" ::
      others.map (fun t => "  " ++ String.intercalate ", " t.commands ++ " — " ++ t.description)
  let sysLines :=
    ["\n⚙️ *ระบบ*", "  /model claude — เปลี่ยนเป็น Claude",
     "  /model gemini — เปลี่ยนเป็น Gemini", "  /help — แสดงข้อความนี้",
     "\n💡 *พิมพ์อิสระได้เลย* — AI จะเลือก tool ให้อัตโนมัติ",
     "เช่น \"ช่วยสรุปอีเมลวันนี้\" หรือ \"อีเมลจาก Grab 7 วันล่าสุด\""]
  String.intercalate "\n" (lines0 ++ emailLines ++ otherLines ++ sysLines)

/-! ## core/db.py — data model and operations

Timestamps (`datetime.now().isoformat()`) are modelled as logical `Nat`
clock values supplied explicitly by the caller; `datetime.now()` is strictly
increasing across the writes of a process, which hypotheses of the memory
theorems make explicit. -/

structure UserRecord where
  user_id : String
  telegram_chat_id : String
  display_name : String
  role : String
  default_llm : String
  timezone : String
  gmail_authorized : Bool
  is_active : Bool
  created_at : Nat
  updated_at : Nat
  deriving Repr, DecidableEq

structure ChatRow where
  id : Nat
  user_id : String
  role : String
  content : String
  tool_used : Option String
  llm_model : Option String
  token_used : Option Nat
  created_at : Nat
  deriving Repr, DecidableEq

structure ToolLog where
  user_id : String
  tool_name : String
  input_summary : String
  output_summary : String
  llm_model : String
  token_used : Nat
  status : String
  error_message : String
  created_at : Nat
  deriving Repr, DecidableEq

structure ScheduleEntry where
  id : Nat
  user_id : String
  tool_name : String
  cron_expr : String
  args : String
  is_active : Bool
  last_run_at : Option Nat
  deriving Repr, DecidableEq

/-- `db.update_user_preference`: only the whitelisted preference columns
`default_llm` and `timezone` may be written; any other key returns without
touching the store.  A whitelisted write sets that column plus `updated_at`
on the row with the given `user_id`. -/
def update_user_preference (users : List UserRecord) (user_id key value : String)
    (now : Nat) : List UserRecord :=
  if key == "default_llm" then
    users.map (fun u =>
      if u.user_id == user_id then { u with default_llm := value, updated_at := now } else u)
  else if key == "timezone" then
    users.map (fun u =>
      if u.user_id == user_id then { u with timezone := value, updated_at := now } else u)
  else users

/-- `db.upsert_user` (conflict on the `user_id` primary key updates only
`display_name` and `updated_at`). -/
def upsert_user (users : List UserRecord) (user_id chat_id display_name role
    default_llm timezone : String) (now : Nat) : List UserRecord :=
  if users.any (fun u => u.user_id == user_id) then
    users.map (fun u =>
      if u.user_id == user_id then { u with display_name := display_name, updated_at := now } else u)
  else
    users ++ [{ user_id := user_id, telegram_chat_id := chat_id,
                display_name := display_name, role := role,
                default_llm := default_llm, timezone := timezone,
                gmail_authorized := false, is_active := true,
                created_at := now, updated_at := now }]

/-- `db.deactivate_user`. -/
def deactivate_user (users : List UserRecord) (chat_id : String) (now : Nat) :
    List UserRecord :=
  users.map (fun u =>
    if u.telegram_chat_id == chat_id then { u with is_active := false, updated_at := now } else u)

/-- Insertion step of `ORDER BY created_at` ascending (ties unspecified by
SQL; this model keeps a deterministic choice). -/
def insertByCreatedAsc (u : UserRecord) : List UserRecord → List UserRecord
  | [] => [u]
  | x :: xs =>
    if u.created_at ≤ x.created_at then u :: x :: xs else x :: insertByCreatedAsc u xs

/-- `db.get_all_users` (`SELECT * FROM users ORDER BY created_at`). -/
def get_all_users (users : List UserRecord) : List UserRecord :=
  users.foldr insertByCreatedAsc []

/-- `db.save_chat`: append a chat row (`id` models the autoincrement key). -/
def save_chat (hist : List ChatRow) (user_id role content : String)
    (tool_used llm_model : Option String) (token_used : Option Nat)
    (now : Nat) : List ChatRow :=
  hist ++ [{ id := hist.length, user_id := user_id, role := role, content := content,
             tool_used := tool_used, llm_model := llm_model,
             token_used := token_used, created_at := now }]

/-- The projection selected by `db.get_chat_context`
(`SELECT role, content, tool_used`). -/
structure CtxRow where
  role : String
  content : String
  tool_used : Option String
  deriving Repr, DecidableEq

/-- Insertion step of `ORDER BY created_at DESC` (ties unspecified by SQL;
deterministic choice here). -/
def insertByCreatedDesc (r : ChatRow) : List ChatRow → List ChatRow
  | [] => [r]
  | x :: xs =>
    if x.created_at ≤ r.created_at then r :: x :: xs else x :: insertByCreatedDesc r xs

/-- Sorting by `created_at DESC`. -/
def sortByCreatedDesc (l : List ChatRow) : List ChatRow :=
  l.foldr insertByCreatedDesc []

/-- `db.get_chat_context`: newest `limit` rows of the user, read in descending
timestamp order, then reversed back to chronological order. -/
def get_chat_context (hist : List ChatRow) (user_id : String) (limit : Nat) :
    List CtxRow :=
  (((sortByCreatedDesc (hist.filter (fun r => r.user_id == user_id))).take limit).reverse).map
    (fun r => { role := r.role, content := r.content, tool_used := r.tool_used })

/-- `db.log_tool_usage`: append a tool log, truncating the summaries to 500
characters and the error text to 1000. -/
def log_tool_usage (logs : List ToolLog) (user_id tool_name input_summary
    output_summary llm_model : String) (token_used : Nat) (status error_message : String)
    (now : Nat) : List ToolLog :=
  logs ++ [{ user_id := user_id, tool_name := tool_name,
             input_summary := pySlice input_summary 500,
             output_summary := pySlice output_summary 500,
             llm_model := llm_model, token_used := token_used, status := status,
             error_message := pySlice error_message 1000, created_at := now }]

/-- `db.get_active_schedules`. -/
def get_active_schedules (scheds : List ScheduleEntry) : List ScheduleEntry :=
  scheds.filter (fun s => s.is_active)

/-- `db.update_schedule_last_run`: stamp `last_run_at` of the entry with the
given id.  (Defined in `core/db.py`; note that no scheduler code path invokes
it.) -/
def update_schedule_last_run (scheds : List ScheduleEntry) (schedule_id : Nat)
    (now : Nat) : List ScheduleEntry :=
  scheds.map (fun s =>
    if s.id == schedule_id then { s with last_run_at := some now } else s)

/-! ## core/memory.py and core/user_manager.py -/

/-- A role/content message sent to the LLM. -/
structure Msg where
  role : String
  content : String
  deriving Repr, DecidableEq

/-- `memory.get_context`: the stored window projected to role and content. -/
def get_context (hist : List ChatRow) (user_id : String) (max_context : Nat) :
    List Msg :=
  (get_chat_context hist user_id max_context).map (fun r => { role := r.role, content := r.content })

/-- `memory.save_user_message`. -/
def save_user_message (hist : List ChatRow) (user_id content : String) (now : Nat) :
    List ChatRow :=
  save_chat hist user_id "user" content none none none now

/-- `user_manager.is_owner`. -/
def is_owner (user : UserRecord) : Bool :=
  user.role == "owner"

/-- `user_manager.get_preference`: the user row (a full `SELECT *` dict)
always carries both preference columns, so the config defaults in the source
are dead for these keys; other keys fall back to the empty string. -/
def get_preference (user : UserRecord) (key : String) : String :=
  if key == "default_llm" then user.default_llm
  else if key == "timezone" then user.timezone
  else ""

/-- `user_manager.set_preference` delegates to `db.update_user_preference`. -/
def set_preference (users : List UserRecord) (user_id key value : String) (now : Nat) :
    List UserRecord :=
  update_user_preference users user_id key value now

/-! ## dispatcher.py -/

/-- The fixed system prompt (`dispatcher.SYSTEM_PROMPT`). -/
def SYSTEM_PROMPT : String :=
  "คุณเป็นผู้ช่วยส่วนตัว ชื่อ OpenMiniCrew ตอบเป็นภาษาไทย กระชับ ได้ใจความ " ++
  "ถ้า user ต้องการทำงานที่ตรงกับ tool ที่มี ให้เรียกใช้ tool นั้น " ++
  "ถ้าไม่ตรงกับ tool ไหน ให้ตอบคำถามทั่วไปตามความรู้ของคุณ " ++
  "สำหรับคำถามเกี่ยวกับการจัดการผู้ใช้ เช่น ดูรายชื่อ user, เพิ่ม/ลบ user " ++
  "ให้แนะนำให้ใช้คำสั่งโดยตรง: /listusers, /adduser <chat_id> [ชื่อ], /removeuser <chat_id> " ++
  "สำคัญ: เมื่อ user ขอข้อมูลจาก tool (อีเมล, แผนที่, ข่าว ฯลฯ) " ++
  "ให้เรียก tool เสมอ — อย่าตอบจากประวัติการสนทนาเก่า เพราะข้อมูลอาจล้าสมัยหรือผิดพลาด"

/-- A request to `llm_router.chat` as issued by the dispatcher. -/
structure LlmReq where
  messages : List Msg
  provider : String
  tier : String
  system : String
  tools : Option (List ToolSpec)

/-- The two shapes in which the dispatcher invokes `tool.execute`: positional
`args` string for direct commands, model-supplied keyword arguments for
LLM-selected calls. -/
inductive ExecArgs where
  | direct (args : String)
  | kwargs (args : List (String × String))
  deriving Repr, DecidableEq

/-- The persistent store touched by the dispatcher and the scheduler. -/
structure Db where
  users : List UserRecord
  chat_history : List ChatRow
  tool_logs : List ToolLog
  schedules : List ScheduleEntry
  deriving Repr

/-- The dispatcher's collaborators: the tool registry, the provider registry
(read by `/model`), the LLM router outcome, tool execution outcomes, and the
configuration the touched branches read. -/
structure DispatchEnv where
  toolReg : ToolRegistry
  providers : List Provider
  llm : LlmReq → Except String ChatResp
  exec : String → String → ExecArgs → Except String String
  webhook_host : String
  auth_url : String → String → Option String
  now : Nat
  default_llm : String
  timezone : String
  max_context : Nat

/-- The outcome of one `dispatch` call: the returned
`(text, tool_used, llm_model, token_used)` tuple, the updated store, the
number of LLM router calls made, and the tool executions performed (in
order). -/
structure DispatchResult where
  reply : String
  tool_used : Option String
  llm_model : Option String
  token_used : Nat
  db : Db
  llm_calls : Nat
  exec_calls : List (String × ExecArgs)
  deriving Repr

/-- An apostrophe, as it appears in Python exception text. -/
def pySQuote : String := String.singleton (Char.ofNat 39)

/-- The text of the `AttributeError` raised by `selected_tool.direct_output`
when the tool's class never declared the attribute. -/
def direct_output_attr_err (t : Tool) : String :=
  pySQuote ++ t.pycls ++ pySQuote ++ " object has no attribute " ++
    pySQuote ++ "direct_output" ++ pySQuote

/-- `dispatcher._handle_model_command`: list configured providers, reject a
name that is not configured, or store the whitelisted `default_llm`
preference.  Returns the reply and the updated users table. -/
def handle_model_command (providers : List Provider) (users : List UserRecord)
    (user_id args0 : String) (now : Nat) : String × List UserRecord :=
  let available := get_available providers
  let args := pyLower (pyStrip args0)
  if args == "" then
    let lines := ["🧠 LLM ที่ใช้ได้:\n"] ++ available.map (fun n => "  ✅ " ++ n) ++
      [if !available.isEmpty then "\nใช้: /model [ชื่อ] เช่น /model " ++ available.headD ""
       else "\n❌ ไม่มี LLM ที่ตั้งค่าไว้"]
    (String.intercalate "\n" lines, users)
  else if !(available.contains args) then
    ("❌ ใช้ " ++ args ++ " ไม่ได้ — ยังไม่ได้ตั้งค่า API key\n✅ ใช้ได้: " ++
       String.intercalate ", " available, users)
  else
    ("✅ เปลี่ยน LLM เป็น " ++ args ++ " เรียบร้อย",
     set_preference users user_id "default_llm" args now)

/-- The free-form branch of `dispatcher.dispatch` (everything after the direct
command lookup misses): first router call with all tool specs; optional tool
execution; `direct_output` passthrough, summarisation round-trip, or the
`AttributeError` path when the attribute is missing; failures logged and
formatted as in the source. -/
def dispatch_freeform (env : DispatchEnv) (db : Db) (user_id : String)
    (user : UserRecord) (text : String) : DispatchResult :=
  let provider := get_preference user "default_llm"
  let context := get_context db.chat_history user_id env.max_context ++
    [{ role := "user", content := text }]
  let tool_specs := get_all_specs env.toolReg
  let req1 : LlmReq :=
    { messages := context, provider := provider, tier := "cheap",
      system := SYSTEM_PROMPT,
      tools := if tool_specs.isEmpty then none else some tool_specs }
  match env.llm req1 with
  | Except.error e =>
    { reply := "เกิดข้อผิดพลาดในการประมวลผล: " ++ e ++ "\nกรุณาลองใหม่",
      tool_used := none, llm_model := none, token_used := 0,
      db := db, llm_calls := 1, exec_calls := [] }
  | Except.ok resp =>
    match resp.tool_call with
    | none =>
      { reply := resp.content, tool_used := none, llm_model := some resp.model,
        token_used := resp.token_used, db := db, llm_calls := 1, exec_calls := [] }
    | some tc =>
      match get_tool env.toolReg tc.name with
      | none =>
        { reply := resp.content, tool_used := none, llm_model := some resp.model,
          token_used := resp.token_used, db := db, llm_calls := 1, exec_calls := [] }
      | some st =>
        match env.exec st.name user_id (ExecArgs.kwargs tc.args) with
        | Except.error e =>
          { reply := "เรียก " ++ tc.name ++ " ไม่สำเร็จ: " ++ e,
            tool_used := some tc.name, llm_model := some resp.model,
            token_used := resp.token_used,
            db := { db with tool_logs := log_tool_usage db.tool_logs user_id tc.name "" "" "" 0 "failed" e env.now },
            llm_calls := 1, exec_calls := [(st.name, ExecArgs.kwargs tc.args)] }
        | Except.ok tool_result =>
          match st.direct_output with
          | some true =>
            { reply := tool_result, tool_used := some tc.name,
              llm_model := some resp.model, token_used := resp.token_used,
              db := db, llm_calls := 1, exec_calls := [(st.name, ExecArgs.kwargs tc.args)] }
          | some false =>
            let summary_messages := context ++
              [{ role := "assistant", content := "[เรียก " ++ tc.name ++ "]" },
               { role := "user", content :=
                  "ผลลัพธ์จาก " ++ tc.name ++ ":\n" ++ tool_result ++
                  "\n\nช่วยสรุปให้ user เข้าใจง่าย ถ้ามี URL หรือลิงก์ ให้เก็บไว้ครบทุกอัน อย่าตัดออก" }]
            match env.llm { messages := summary_messages, provider := provider,
                            tier := "cheap", system := SYSTEM_PROMPT, tools := none } with
            | Except.ok summary =>
              { reply := summary.content, tool_used := some tc.name,
                llm_model := some summary.model,
                token_used := resp.token_used + summary.token_used,
                db := db, llm_calls := 2, exec_calls := [(st.name, ExecArgs.kwargs tc.args)] }
            | Except.error e2 =>
              { reply := "เรียก " ++ tc.name ++ " ไม่สำเร็จ: " ++ e2,
                tool_used := some tc.name, llm_model := some resp.model,
                token_used := resp.token_used,
                db := { db with tool_logs := log_tool_usage db.tool_logs user_id tc.name "" "" "" 0 "failed" e2 env.now },
                llm_calls := 2, exec_calls := [(st.name, ExecArgs.kwargs tc.args)] }
          | none =>
            let e := direct_output_attr_err st
            { reply := "เรียก " ++ tc.name ++ " ไม่สำเร็จ: " ++ e,
              tool_used := some tc.name, llm_model := some resp.model,
              token_used := resp.token_used,
              db := { db with tool_logs := log_tool_usage db.tool_logs user_id tc.name "" "" "" 0 "failed" e env.now },
              llm_calls := 1, exec_calls := [(st.name, ExecArgs.kwargs tc.args)] }

/-- `dispatcher.dispatch`: the routing state machine over one inbound
message.  Reserved commands are handled locally, a direct command executes
its tool with the raw args (failures logged and formatted), and everything
else goes to the free-form LLM branch. -/
def dispatch (env : DispatchEnv) (db : Db) (user_id : String) (user : UserRecord)
    (text : String) : DispatchResult :=
  let pc := parse_command text
  let command := pc.1
  let args := pc.2
  if command == "/help" then
    { reply := get_help_text env.toolReg, tool_used := none, llm_model := none,
      token_used := 0, db := db, llm_calls := 0, exec_calls := [] }
  else if command == "/model" then
    let mr := handle_model_command env.providers db.users user_id args env.now
    { reply := mr.1, tool_used := none, llm_model := none, token_used := 0,
      db := { db with users := mr.2 }, llm_calls := 0, exec_calls := [] }
  else if command == "/adduser" then
    if !(is_owner user) then
      { reply := "❌ คำสั่งนี้ใช้ได้เฉพาะ owner", tool_used := none, llm_model := none,
        token_used := 0, db := db, llm_calls := 0, exec_calls := [] }
    else
      match pySplitWs1 (pyStrip args).toList with
      | [] =>
        { reply := "❌ ใช้: /adduser <chat_id> [ชื่อ]", tool_used := none,
          llm_model := none, token_used := 0, db := db, llm_calls := 0, exec_calls := [] }
      | p0 :: rest =>
        let new_chat_id := String.mk p0
        let display_name := match rest with | r :: _ => String.mk r | [] => new_chat_id
        { reply := "✅ เพิ่มผู้ใช้ *" ++ display_name ++ "* (chat\\_id: `" ++
            new_chat_id ++ "`) แล้ว",
          tool_used := none, llm_model := none, token_used := 0,
          db := { db with users := (upsert_user db.users new_chat_id new_chat_id
                    display_name "user" env.default_llm env.timezone env.now) },
          llm_calls := 0, exec_calls := [] }
  else if command == "/removeuser" then
    if !(is_owner user) then
      { reply := "❌ คำสั่งนี้ใช้ได้เฉพาะ owner", tool_used := none, llm_model := none,
        token_used := 0, db := db, llm_calls := 0, exec_calls := [] }
    else
      let target := pyStrip args
      if target == "" then
        { reply := "❌ ใช้: /removeuser <chat_id>", tool_used := none, llm_model := none,
          token_used := 0, db := db, llm_calls := 0, exec_calls := [] }
      else
        { reply := "✅ ปิดการใช้งาน chat\\_id: `" ++ target ++ "` แล้ว",
          tool_used := none, llm_model := none, token_used := 0,
          db := { db with users := deactivate_user db.users target env.now },
          llm_calls := 0, exec_calls := [] }
  else if command == "/listusers" then
    if !(is_owner user) then
      { reply := "❌ คำสั่งนี้ใช้ได้เฉพาะ owner", tool_used := none, llm_model := none,
        token_used := 0, db := db, llm_calls := 0, exec_calls := [] }
    else
      let users := get_all_users db.users
      let lines := ("👥 *ผู้ใช้ทั้งหมด (" ++ toString users.length ++ " คน):*\n") ::
        users.map (fun u =>
          (if u.is_active then "✅" else "❌") ++ " " ++ u.display_name ++ " — `" ++
            u.telegram_chat_id ++ "` (" ++ u.role ++ ")")
      { reply := String.intercalate "\n" lines, tool_used := none, llm_model := none,
        token_used := 0, db := db, llm_calls := 0, exec_calls := [] }
  else if command == "/authgmail" then
    if env.webhook_host == "" then
      { reply := "❌ ต้องตั้งค่า `WEBHOOK_HOST` ใน .env ก่อน\nเช่น: `WEBHOOK_HOST=https://yourdomain.com`",
        tool_used := none, llm_model := none, token_used := 0, db := db,
        llm_calls := 0, exec_calls := [] }
    else
      match env.auth_url user_id user.telegram_chat_id with
      | none =>
        { reply := "❌ ยังไม่ได้ตั้งค่า `credentials.json` (Google OAuth client)",
          tool_used := none, llm_model := none, token_used := 0, db := db,
          llm_calls := 0, exec_calls := [] }
      | some url =>
        { reply := "🔐 *Authorize Gmail*\n\nคลิกลิงก์นี้เพื่อ authorize Gmail ของคุณ:\n" ++
            url ++ "\n\n⏱ ลิงก์หมดอายุใน 15 นาที\n\n_หลัง authorize แล้ว bot จะแจ้งให้ทราบอัตโนมัติ_",
          tool_used := none, llm_model := none, token_used := 0, db := db,
          llm_calls := 0, exec_calls := [] }
  else
    match (if command != "" then get_by_command env.toolReg command else none) with
    | some tool =>
      match env.exec tool.name user_id (ExecArgs.direct args) with
      | Except.ok result =>
        { reply := result, tool_used := some tool.name, llm_model := none,
          token_used := 0, db := db, llm_calls := 0,
          exec_calls := [(tool.name, ExecArgs.direct args)] }
      | Except.error e =>
        { reply := "เกิดข้อผิดพลาด: " ++ e ++ "\nกรุณาลองใหม่",
          tool_used := some tool.name, llm_model := none, token_used := 0,
          db := { db with tool_logs := log_tool_usage db.tool_logs user_id tool.name "" "" "" 0 "failed" e env.now },
          llm_calls := 0, exec_calls := [(tool.name, ExecArgs.direct args)] }
    | none => dispatch_freeform env db user_id user text

/-! ## scheduler.py — `_run_tool_for_user` -/

/-- The state a scheduled job run touches: the schedules table (never written
by the job), the tool logs, the outbound Telegram messages, and the in-memory
`_last_run_info` dict. -/
structure SchedState where
  schedules : List ScheduleEntry
  tool_logs : List ToolLog
  sent : List (String × String)
  last_run_info : Option String
  deriving Repr

/-- `scheduler._run_tool_for_user`: resolve the tool by name (a miss only
logs a warning), execute it, send the result to the bound chat and note the
run in `_last_run_info`; an execution failure is logged as a failed tool
usage and reported to the chat. -/
def run_tool_for_user (toolReg : ToolRegistry)
    (exec : String → String → ExecArgs → Except String String)
    (st : SchedState) (user_id chat_id tool_name args : String) (now : Nat) :
    SchedState :=
  match get_tool toolReg tool_name with
  | none => st
  | some tool =>
    match exec tool.name user_id (ExecArgs.direct args) with
    | Except.ok result =>
      { st with sent := st.sent ++ [(chat_id, result)], last_run_info := some tool_name }
    | Except.error e =>
      { st with
          tool_logs := log_tool_usage st.tool_logs user_id tool_name "" "" "" 0 "failed" e now,
          sent := st.sent ++ [(chat_id, "[Scheduled] " ++ tool_name ++ " ล้มเหลว: " ++ e)] }

/-! ## Concrete fixtures used by witnesses and counterexamples -/

/-- The per-position invariant preserved by every router call: the provider
at each registry slot keeps its name, and an auth-failed mark is never
cleared. -/
def providerMono (p q : Provider) : Prop :=
  q.name = p.name ∧ (p.auth_failed = true → q.auth_failed = true)

/-- The per-row frame relation of a preference write with key `key` for user
`uid`: every field except the written preference and `updated_at` is
unchanged, non-whitelisted preference fields are unchanged, and rows of other
users are unchanged entirely. -/
def prefFrame (key uid : String) (u u2 : UserRecord) : Prop :=
  u2.user_id = u.user_id ∧ u2.telegram_chat_id = u.telegram_chat_id ∧
  u2.display_name = u.display_name ∧ u2.role = u.role ∧
  u2.gmail_authorized = u.gmail_authorized ∧ u2.is_active = u.is_active ∧
  u2.created_at = u.created_at ∧
  (key ≠ "default_llm" → u2.default_llm = u.default_llm) ∧
  (key ≠ "timezone" → u2.timezone = u.timezone) ∧
  (u.user_id ≠ uid → u2 = u)

/-- Provider behaviour used by the C2 witness: the preferred provider fails
authentication, the alternate succeeds. -/
def c2wBeh : ProviderBeh := fun n =>
  if n == "A" then Except.error "401 unauthorized"
  else Except.ok { content := "ok from B", tool_call := none, model := "b-model", token_used := 7 }


/-- A minimal user row. -/
def c8User : UserRecord :=
  ⟨"u1", "c1", "User", "user", "claude", "Asia/Bangkok", false, true, 1, 1⟩

/-- A store holding just that user. -/
def c8Db : Db :=
  { users := [c8User], chat_history := [], tool_logs := [], schedules := [] }

/-- A dispatcher environment with only `claude` configured, no tools, and
failing oracles (which the `/model` branch never consults). -/
def c8Env : DispatchEnv :=
  { toolReg := ⟨[], []⟩, providers := [⟨"claude", true, false⟩],
    llm := fun _ => Except.error "no llm",
    exec := fun _ _ _ => Except.error "no exec",
    webhook_host := "", auth_url := fun _ _ => none, now := 10,
    default_llm := "claude", timezone := "Asia/Bangkok", max_context := 10 }

/-- A registered tool whose execution fails (used for the direct-command
failure scenario). -/
def c7Tool : Tool := ⟨"boomtool", "desc", ["/boom"], "BoomTool", none, []⟩

/-- Environment with `c7Tool` registered under `/boom` and an exec oracle
that always raises `"kaboom"`. -/
def c7Env : DispatchEnv :=
  { toolReg := ⟨[c7Tool], [("/boom", c7Tool)]⟩, providers := [],
    llm := fun _ => Except.error "no llm",
    exec := fun _ _ _ => Except.error "kaboom",
    webhook_host := "", auth_url := fun _ _ => none, now := 42,
    default_llm := "claude", timezone := "Asia/Bangkok", max_context := 10 }

/-- A registered tool that, like the real `news_summary` and `email_summary`
classes, never declares the `direct_output` attribute. -/
def c3Tool : Tool := ⟨"news_summary", "สรุปข่าว", ["/news"], "NewsSummaryTool", none, []⟩

/-- The model reply selecting that tool. -/
def c3Resp : ChatResp :=
  { content := "", tool_call := some ⟨"news_summary", []⟩, model := "m1", token_used := 3 }

/-- Environment where the first router call selects `news_summary`, its
execution succeeds, and a summarisation call would succeed if reached. -/
def c3Env : DispatchEnv :=
  { toolReg := ⟨[c3Tool], [("/news", c3Tool)]⟩, providers := [],
    llm := fun req => if req.tools.isSome then Except.ok c3Resp
                      else Except.ok { content := "summary", tool_call := none, model := "m1", token_used := 4 },
    exec := fun _ _ _ => Except.ok "NEWS RESULT",
    webhook_host := "", auth_url := fun _ _ => none, now := 7,
    default_llm := "claude", timezone := "Asia/Bangkok", max_context := 10 }

/-! ## Theorems

### C5 — parse_command -/

/-- Helper: the source parser agrees everywhere with the amended contract. -/
theorem parse_command_eq_amended (text : String) :
    parse_command text = parse_command_amended text := by
  simp only [parse_command, parse_command_amended, pyStrip]
  generalize pyStripList text.toList = l
  by_cases h : pyStartsWith (String.mk l) "/"
  · simp only [h, if_true]
    obtain ⟨cs, rfl⟩ : ∃ cs, l = '/' :: cs := by
      rcases l with _ | ⟨c, cs⟩
      · simp [pyStartsWith, List.isPrefixOf] at h
      · refine ⟨cs, ?_⟩
        simp only [pyStartsWith, List.isPrefixOf, Bool.and_true, beq_iff_eq] at h
        rw [← h]
    have hl : (String.mk ('/' :: cs)).toList = '/' :: cs := rfl
    rw [hl]
    have hdw : List.dropWhile pyIsSpace ('/' :: cs) = '/' :: cs := by
      rw [List.dropWhile_cons]
      simp [pyIsSpace]
    simp only [pySplitWs1, hdw]
    by_cases hr : (List.dropWhile pyIsSpace (List.dropWhile (fun c => !(pyIsSpace c)) ('/' :: cs))).isEmpty
    · simp only [hr, if_true, List.headD]
      have : List.dropWhile pyIsSpace (List.dropWhile (fun c => !(pyIsSpace c)) ('/' :: cs)) = [] := by
        simpa [List.isEmpty_iff] using hr
      simp [this]
    · simp [hr, List.headD]
  · simp [h]

/-- C5: for every input whose stripped form begins with `/`, `parse_command`
yields a non-empty command (the first whitespace-delimited token, lowercased,
`@`-suffix stripped) and the remainder as args; otherwise the empty command
and the stripped text as args.  Amended from the claim: the initial
`text.strip()` also removes trailing whitespace, so the args are the stripped
remainder (resp. the stripped text), not the verbatim remainder (resp. the
full text). -/
theorem c5_parse_command (text : String) :
    parse_command text = parse_command_amended text ∧
    (pyStartsWith (pyStrip text) "/" = true → (parse_command text).1 ≠ "") := by
  refine ⟨parse_command_eq_amended text, fun h => ?_⟩
  rw [parse_command_eq_amended]
  simp only [pyStrip] at h
  simp only [parse_command_amended, pyStrip]
  generalize hg : pyStripList text.toList = l at h ⊢
  obtain ⟨cs, rfl⟩ : ∃ cs, l = '/' :: cs := by
    rcases l with _ | ⟨c, cs⟩
    · simp [pyStartsWith, List.isPrefixOf] at h
    · refine ⟨cs, ?_⟩
      simp only [pyStartsWith, List.isPrefixOf, Bool.and_true, beq_iff_eq] at h
      rw [← h]
  simp only [h, if_true]
  have h1 : List.takeWhile (fun c => !(pyIsSpace c)) ((String.mk ('/' :: cs)).toList) =
      '/' :: List.takeWhile (fun c => !(pyIsSpace c)) cs := by
    simp [List.takeWhile_cons, pyIsSpace]
  rw [h1]
  simp [pyLower, List.takeWhile_cons, String.ext_iff]

/-- C5 witness: a concrete slash command hits the non-empty-command clause. -/
theorem c5_witness :
    parse_command "/email x" = parse_command_amended "/email x" ∧
    (parse_command "/email x").1 ≠ "" :=
  ⟨(c5_parse_command "/email x").1, (c5_parse_command "/email x").2 (by decide)⟩

/-- C5 counterexample: on `"hi "` the code strips the trailing space from the
args, so the claim's "the full text as args" fails. -/
theorem c5_counterexample :
    parse_command "hi " = ("", "hi") ∧ ("hi" : String) ≠ "hi " :=
  ⟨by decide, by decide⟩

/-! ### C1 — ProviderRegistry.get_fallback -/

/-- Helper: `get_fallback` unfolded when the preferred name is found. -/
theorem get_fallback_of_find_some (regs : List Provider) (preferred : String)
    (p : Provider) (h : regs.find? (fun q => q.name == preferred) = some p) :
    get_fallback regs preferred =
      if p.configured then some p else regs.find? (fun q => q.configured) := by
  unfold get_fallback
  rw [h]

/-- Helper: `get_fallback` unfolded when the preferred name is absent. -/
theorem get_fallback_of_find_none (regs : List Provider) (preferred : String)
    (h : regs.find? (fun q => q.name == preferred) = none) :
    get_fallback regs preferred = regs.find? (fun q => q.configured) := by
  unfold get_fallback
  rw [h]

/-- Helper: if the first name match is configured, it is also the first
match of name-and-configured. -/
theorem find?_name_conj (n : String) : ∀ (regs : List Provider) (p : Provider),
    regs.find? (fun q => q.name == n) = some p → p.configured = true →
    regs.find? (fun q => q.name == n && q.configured) = some p := by
  intro regs
  induction regs with
  | nil => intro p h _; simp at h
  | cons x xs ih =>
    intro p hp hc
    by_cases hx : (x.name == n) = true
    · rw [List.find?_cons_of_pos (p := fun q => q.name == n) xs hx] at hp
      cases hp
      rw [List.find?_cons_of_pos (p := fun q => q.name == n && q.configured) xs
        (by show (x.name == n && x.configured) = true; rw [hx, hc]; rfl)]
    · rw [List.find?_cons_of_neg (p := fun q => q.name == n) xs hx] at hp
      rw [List.find?_cons_of_neg (p := fun q => q.name == n && q.configured) xs
        (by
          intro hcontra
          rw [Bool.and_eq_true] at hcontra
          exact hx hcontra.1)]
      exact ih p hp hc

/-- Helper: with unique provider names, if the (unique) name match is
unconfigured then no provider matches name-and-configured. -/
theorem any_name_conj_false (n : String) : ∀ (regs : List Provider) (p : Provider),
    (regs.map Provider.name).Nodup →
    regs.find? (fun q => q.name == n) = some p → p.configured = false →
    regs.any (fun q => q.name == n && q.configured) = false := by
  intro regs
  induction regs with
  | nil => intro p _ h _; simp at h
  | cons x xs ih =>
    intro p hnd hp hc
    have hnd' := hnd
    rw [List.map_cons, List.nodup_cons] at hnd'
    rw [List.any_cons]
    by_cases hx : (x.name == n) = true
    · rw [List.find?_cons_of_pos (p := fun q => q.name == n) xs hx] at hp
      cases hp
      have h1 : (x.name == n && x.configured) = false := by rw [hx, hc]; rfl
      rw [h1, Bool.false_or, List.any_eq_false]
      intro q hq
      have hqn : q.name ≠ n := by
        intro he
        refine hnd'.1 ?_
        rw [(by simpa using hx : x.name = n), ← he]
        exact List.mem_map_of_mem Provider.name hq
      simp [hqn]
    · rw [List.find?_cons_of_neg (p := fun q => q.name == n) xs hx] at hp
      have h1 : (x.name == n && x.configured) = false := by
        rw [(by simpa using hx : (x.name == n) = false)]
        rfl
      rw [h1, Bool.false_or]
      exact ih p hnd'.2 hp hc

/-- C1 (amended): with unique provider names, `get_fallback` returns the named
provider exactly when it exists and is configured — its auth-failed mark is
ignored — and otherwise falls back to the first configured provider in
registration order, again ignoring auth-failed marks; it returns `none`
exactly when no configured provider exists at all. -/
theorem c1_get_fallback_amended (regs : List Provider) (preferred : String)
    (hnd : (regs.map Provider.name).Nodup) :
    get_fallback regs preferred = resolve_amended regs preferred ∧
    (get_fallback regs preferred = none ↔ ∀ p ∈ regs, p.configured = false) := by
  cases hfind : regs.find? (fun q => q.name == preferred) with
  | none =>
    rw [get_fallback_of_find_none regs preferred hfind]
    have hany : regs.any (fun q => q.name == preferred && q.configured) = false := by
      rw [List.any_eq_false]
      intro q hq
      have := List.find?_eq_none.mp hfind q hq
      simp only [Bool.not_eq_true] at this
      simp [this]
    constructor
    · unfold resolve_amended
      rw [hany]
      simp
    · rw [List.find?_eq_none]
      constructor
      · intro h p hp
        simpa using h p hp
      · intro h p hp
        simp [h p hp]
  | some p =>
    rw [get_fallback_of_find_some regs preferred p hfind]
    by_cases hc : p.configured = true
    · rw [hc, if_pos rfl]
      constructor
      · unfold resolve_amended
        have hany : regs.any (fun q => q.name == preferred && q.configured) = true := by
          rw [List.any_eq_true]
          refine ⟨p, List.mem_of_find?_eq_some hfind, ?_⟩
          have h3 : (p.name == preferred) = true := by
            simpa using List.find?_some (p := fun q : Provider => q.name == preferred) hfind
          rw [Bool.and_eq_true]
          exact ⟨h3, hc⟩
        rw [hany, if_pos rfl, find?_name_conj preferred regs p hfind hc]
      · constructor
        · intro h; cases h
        · intro h
          exact absurd hc (by simp [h p (List.mem_of_find?_eq_some hfind)])
    · have hc' : p.configured = false := by simpa using hc
      rw [hc', if_neg (by simp)]
      constructor
      · unfold resolve_amended
        rw [any_name_conj_false preferred regs p hnd hfind hc', if_neg (by simp)]
      · rw [List.find?_eq_none]
        constructor
        · intro h q hq
          simpa using h q hq
        · intro h q hq
          simp [h q hq]

/-- C1 witness: preferred `"A"` unconfigured, `"B"` configured — the fallback
returns `B` and the none-characterisation holds. -/
theorem c1_witness :
    get_fallback [⟨"A", false, false⟩, ⟨"B", true, false⟩] "A" =
      resolve_amended [⟨"A", false, false⟩, ⟨"B", true, false⟩] "A" ∧
    (get_fallback [⟨"A", false, false⟩, ⟨"B", true, false⟩] "A" = none ↔
      ∀ p ∈ [(⟨"A", false, false⟩ : Provider), ⟨"B", true, false⟩], p.configured = false) :=
  c1_get_fallback_amended [⟨"A", false, false⟩, ⟨"B", true, false⟩] "A" (by decide)

/-- C1 counterexample: provider `A` is configured but marked auth-failed and a
configured, non-auth-failed `B` exists; the claim requires `resolve` to return
`B`, but `get_fallback` returns the auth-failed `A` (it never reads the
flag). -/
theorem c1_counterexample :
    get_fallback [⟨"A", true, true⟩, ⟨"B", true, false⟩] "A" = some ⟨"A", true, true⟩ ∧
    (⟨"A", true, true⟩ : Provider).auth_failed = true ∧
    (⟨"B", true, false⟩ : Provider).configured = true ∧
    (⟨"B", true, false⟩ : Provider).auth_failed = false := by
  refine ⟨by decide, rfl, rfl, rfl⟩

/-! ### C2 — LLMRouter.chat fallback -/

/-- C2 (amended): when the resolved provider's chat raises, the router
behaves as follows.  A success is returned unchanged.  A non-authentication
error propagates unchanged with no state change and no retry.  An
authentication-class error marks the provider auth-failed for the rest of the
process and then attempts only the FIRST other configured, non-auth-failed
provider in registration order, returning that provider's outcome as-is — a
success is returned, but a failure propagates as that provider's raw error
and no further providers are attempted; only when no such alternate exists at
all does chat fail with the router's configuration `ValueError`. -/
theorem c2_router_fallback (regs : List Provider) (beh : ProviderBeh)
    (preferred : String) (p : Provider)
    (hres : get_fallback regs preferred = some p) :
    (∀ r, beh p.name = Except.ok r →
       routerChat regs beh preferred = (Except.ok r, regs)) ∧
    (∀ e, beh p.name = Except.error e → is_auth_error e = false →
       routerChat regs beh preferred = (Except.error (RouterErr.providerError e), regs)) ∧
    (∀ e, beh p.name = Except.error e → is_auth_error e = true →
       (routerChat regs beh preferred).2 = markAuthFailed regs p.name ∧
       ((∃ o, firstAlternate (markAuthFailed regs p.name) p.name = some o ∧
           (∀ r, beh o.name = Except.ok r →
              (routerChat regs beh preferred).1 = Except.ok r) ∧
           (∀ e2, beh o.name = Except.error e2 →
              (routerChat regs beh preferred).1 =
                Except.error (RouterErr.providerError e2))) ∨
        (firstAlternate (markAuthFailed regs p.name) p.name = none ∧
         (routerChat regs beh preferred).1 =
           Except.error (RouterErr.valueError (badKeyMsg p.name))))) := by
  refine ⟨?_, ?_, ?_⟩
  · intro r hr
    simp only [routerChat, hres, hr]
  · intro e he hna
    simp only [routerChat, hres, he, hna, Bool.false_eq_true, if_false]
  · intro e he ha
    cases halt : firstAlternate (markAuthFailed regs p.name) p.name with
    | none =>
      refine ⟨?_, Or.inr ⟨rfl, ?_⟩⟩ <;>
        simp only [routerChat, hres, he, ha, if_true, halt]
    | some o =>
      refine ⟨?_, Or.inl ⟨o, rfl, fun r' hr' => ?_, fun e2' he2' => ?_⟩⟩
      · cases hbo : beh o.name <;>
          simp only [routerChat, hres, he, ha, if_true, halt, hbo]
      · simp only [routerChat, hres, he, ha, if_true, halt, hr']
      · simp only [routerChat, hres, he, ha, if_true, halt, he2']

/-- C2 witness: two configured providers, the preferred one failing with an
authentication error; the amended theorem applies and its auth branch fires. -/
theorem c2_witness :
    (routerChat [⟨"A", true, false⟩, ⟨"B", true, false⟩] c2wBeh "A").2 =
      markAuthFailed [⟨"A", true, false⟩, ⟨"B", true, false⟩] "A" ∧
    (routerChat [⟨"A", true, false⟩, ⟨"B", true, false⟩] c2wBeh "A").1 =
      Except.ok { content := "ok from B", tool_call := none, model := "b-model", token_used := 7 } := by
  have h := (c2_router_fallback [⟨"A", true, false⟩, ⟨"B", true, false⟩] c2wBeh "A"
      ⟨"A", true, false⟩ (by decide)).2.2 "401 unauthorized" rfl (by decide)
  refine ⟨h.1, ?_⟩
  rcases h.2 with ⟨o, ho, hok, _⟩ | ⟨hnone, _⟩
  · have hoB : o = ⟨"B", true, false⟩ := by
      have : firstAlternate (markAuthFailed [⟨"A", true, false⟩, ⟨"B", true, false⟩] "A") "A" =
          some ⟨"B", true, false⟩ := by decide
      rw [this] at ho
      cases ho
      rfl
    exact hok _ (by rw [hoB]; rfl)
  · exact absurd hnone (by decide)

/-- C2 counterexample: providers A, B, C all configured; A fails with an
authentication error and the first alternate B fails with a
non-authentication error while C would succeed.  The claim requires the
router to continue to C (first success) or else fail with a configuration
error; the code instead propagates B's raw error and never reaches C. -/
theorem c2_counterexample :
    (routerChat [⟨"A", true, false⟩, ⟨"B", true, false⟩, ⟨"C", true, false⟩]
        (fun n => if n == "A" then Except.error "401 unauthorized"
                  else if n == "B" then Except.error "boom"
                  else Except.ok { content := "ok from C", tool_call := none, model := "c", token_used := 1 })
        "A").1 = Except.error (RouterErr.providerError "boom") ∧
    (fun n => if n == "A" then (Except.error "401 unauthorized" : Except String ChatResp)
              else if n == "B" then Except.error "boom"
              else Except.ok { content := "ok from C", tool_call := none, model := "c", token_used := 1 }) "C" =
      Except.ok { content := "ok from C", tool_call := none, model := "c", token_used := 1 } ∧
    is_auth_error "boom" = false ∧
    (⟨"C", true, false⟩ : Provider).configured = true := by
  exact ⟨rfl, rfl, by decide, rfl⟩

/-! ### C9 — auth-failed flag is monotone -/

/-- Helper: marking preserves names and never clears the flag. -/
theorem forall₂_markAuthFailed (regs : List Provider) (nm : String) :
    List.Forall₂ providerMono regs (markAuthFailed regs nm) := by
  unfold markAuthFailed
  rw [List.forall₂_map_right_iff]
  rw [List.forall₂_same]
  intro x _
  by_cases hx : (x.name == nm) = true
  · simp only [hx, if_true]
    exact ⟨rfl, fun _ => rfl⟩
  · simp only [hx, Bool.false_eq_true, if_false]
    exact ⟨rfl, fun h => h⟩

/-- Helper: one router call only ever adds auth-failed marks. -/
theorem forall₂_routerChat (regs : List Provider) (beh : ProviderBeh)
    (preferred : String) :
    List.Forall₂ providerMono regs (routerChat regs beh preferred).2 := by
  have hrefl : List.Forall₂ providerMono regs regs := by
    rw [List.forall₂_same]
    exact fun x _ => ⟨rfl, fun h => h⟩
  cases hres : get_fallback regs preferred with
  | none =>
    simp only [routerChat, hres]
    exact hrefl
  | some p =>
    cases hb : beh p.name with
    | ok r =>
      simp only [routerChat, hres, hb]
      exact hrefl
    | error e =>
      by_cases ha : is_auth_error e = true
      · cases halt : firstAlternate (markAuthFailed regs p.name) p.name with
        | none =>
          simp only [routerChat, hres, hb, ha, if_true, halt]
          exact forall₂_markAuthFailed regs p.name
        | some o =>
          cases hbo : beh o.name with
          | ok r =>
            simp only [routerChat, hres, hb, ha, if_true, halt, hbo]
            exact forall₂_markAuthFailed regs p.name
          | error e2 =>
            simp only [routerChat, hres, hb, ha, if_true, halt, hbo]
            exact forall₂_markAuthFailed regs p.name
      · simp only [routerChat, hres, hb,
          (by simpa using ha : is_auth_error e = false), Bool.false_eq_true, if_false]
        exact hrefl

/-- Helper: `providerMono` composes along a sequence of states. -/
theorem forall₂_providerMono_trans :
    ∀ {l m n : List Provider}, List.Forall₂ providerMono l m →
      List.Forall₂ providerMono m n → List.Forall₂ providerMono l n := by
  intro l m n h1
  induction h1 generalizing n with
  | nil =>
    intro h2
    cases h2
    exact List.Forall₂.nil
  | @cons a b l' m' hab _ ih =>
    intro h2
    cases h2 with
    | cons hbc h2' =>
      exact List.Forall₂.cons
        ⟨hbc.1.trans hab.1, fun h => hbc.2 (hab.2 h)⟩ (ih h2')

/-- Helper: the whole call sequence only ever adds auth-failed marks. -/
theorem forall₂_runChats (calls : List RouterCall) :
    ∀ regs : List Provider, List.Forall₂ providerMono regs (runChats calls regs) := by
  induction calls with
  | nil =>
    intro regs
    simp only [runChats]
    rw [List.forall₂_same]
    exact fun x _ => ⟨rfl, fun h => h⟩
  | cons c cs ih =>
    intro regs
    simp only [runChats]
    exact forall₂_providerMono_trans
      (forall₂_routerChat regs c.beh c.preferred)
      (ih (routerChat regs c.beh c.preferred).2)

/-- C9: the auth-failed flag is monotone within a process — across any
sequence of `LLMRouter.chat` calls, a registry slot whose provider is marked
auth-failed keeps its name and stays auth-failed; no reachable state clears
the mark. -/
theorem c9_auth_failed_monotone (calls : List RouterCall) (regs : List Provider)
    (i : Nat) (h : i < regs.length)
    (hset : (regs.get ⟨i, h⟩).auth_failed = true) :
    ∃ h2 : i < (runChats calls regs).length,
      ((runChats calls regs).get ⟨i, h2⟩).name = (regs.get ⟨i, h⟩).name ∧
      ((runChats calls regs).get ⟨i, h2⟩).auth_failed = true := by
  have hf := forall₂_runChats calls regs
  have hlen := List.Forall₂.length_eq hf
  refine ⟨hlen ▸ h, ?_⟩
  have := (List.forall₂_iff_get.mp hf).2 i h (hlen ▸ h)
  exact ⟨this.1, this.2 hset⟩

/-- C9 witness: one call on a registry whose single provider is already
auth-failed — the mark survives. -/
theorem c9_witness :
    ∃ h2 : 0 < (runChats [⟨c2wBeh, "A"⟩] [⟨"A", true, true⟩]).length,
      ((runChats [⟨c2wBeh, "A"⟩] [⟨"A", true, true⟩]).get ⟨0, h2⟩).name =
        (([⟨"A", true, true⟩] : List Provider).get ⟨0, by decide⟩).name ∧
      ((runChats [⟨c2wBeh, "A"⟩] [⟨"A", true, true⟩]).get ⟨0, h2⟩).auth_failed = true :=
  c9_auth_failed_monotone [⟨c2wBeh, "A"⟩] [⟨"A", true, true⟩] 0 (by decide) (by decide)

/-! ### C10 — preference whitelist frame property -/

/-- C10: a preference write with a key outside the whitelist
`{default_llm, timezone}` is a complete no-op on the users table (every field
of every row, `updated_at` included, is unchanged); and any preference write
at all changes at most the written field plus `updated_at` of the addressed
user's row. -/
theorem c10_update_user_preference (users : List UserRecord)
    (uid key value : String) (now : Nat) :
    (key ≠ "default_llm" → key ≠ "timezone" →
       update_user_preference users uid key value now = users) ∧
    List.Forall₂ (prefFrame key uid) users (update_user_preference users uid key value now) := by
  constructor
  · intro hk ht
    unfold update_user_preference
    rw [if_neg (by simp [hk]), if_neg (by simp [ht])]
  · unfold update_user_preference
    by_cases h1 : (key == "default_llm") = true
    · rw [if_pos h1, List.forall₂_map_right_iff, List.forall₂_same]
      intro x _
      by_cases huid : (x.user_id == uid) = true
      · rw [if_pos huid]
        exact ⟨rfl, rfl, rfl, rfl, rfl, rfl, rfl,
          fun hk => absurd (by simpa using h1) hk,
          fun _ => rfl,
          fun hne => absurd (by simpa using huid) hne⟩
      · rw [if_neg huid]
        exact ⟨rfl, rfl, rfl, rfl, rfl, rfl, rfl, fun _ => rfl, fun _ => rfl, fun _ => rfl⟩
    · rw [if_neg h1]
      by_cases h2 : (key == "timezone") = true
      · rw [if_pos h2, List.forall₂_map_right_iff, List.forall₂_same]
        intro x _
        by_cases huid : (x.user_id == uid) = true
        · rw [if_pos huid]
          exact ⟨rfl, rfl, rfl, rfl, rfl, rfl, rfl,
            fun _ => rfl,
            fun ht => absurd (by simpa using h2) ht,
            fun hne => absurd (by simpa using huid) hne⟩
        · rw [if_neg huid]
          exact ⟨rfl, rfl, rfl, rfl, rfl, rfl, rfl, fun _ => rfl, fun _ => rfl, fun _ => rfl⟩
      · rw [if_neg h2, List.forall₂_same]
        exact fun x _ => ⟨rfl, rfl, rfl, rfl, rfl, rfl, rfl, fun _ => rfl, fun _ => rfl, fun _ => rfl⟩

/-- C10 witness: writing the non-whitelisted key `"role"` leaves a concrete
one-row table untouched. -/
theorem c10_witness :
    ("role" ≠ "default_llm" → "role" ≠ "timezone" →
       update_user_preference [⟨"u1", "c1", "d", "user", "claude", "tz", false, true, 1, 1⟩]
         "u1" "role" "owner" 5 =
         [⟨"u1", "c1", "d", "user", "claude", "tz", false, true, 1, 1⟩]) ∧
    List.Forall₂ (prefFrame "role" "u1")
      [⟨"u1", "c1", "d", "user", "claude", "tz", false, true, 1, 1⟩]
      (update_user_preference [⟨"u1", "c1", "d", "user", "claude", "tz", false, true, 1, 1⟩]
        "u1" "role" "owner" 5) :=
  c10_update_user_preference [⟨"u1", "c1", "d", "user", "claude", "tz", false, true, 1, 1⟩]
    "u1" "role" "owner" 5

/-! ### C8 — /model with an unconfigured name -/

/-- Helper: `dispatch` on a `/model` message reduces to
`_handle_model_command`. -/
theorem dispatch_model_branch (env : DispatchEnv) (db : Db) (user_id : String)
    (user : UserRecord) (text args : String)
    (hparse : parse_command text = ("/model", args)) :
    dispatch env db user_id user text =
      { reply := (handle_model_command env.providers db.users user_id args env.now).1,
        tool_used := none, llm_model := none, token_used := 0,
        db := { db with users := (handle_model_command env.providers db.users user_id args env.now).2 },
        llm_calls := 0, exec_calls := [] } := by
  unfold dispatch
  rw [hparse]
  simp only [show (("/model" : String) == "/help") = false from by decide,
    show (("/model" : String) == "/model") = true from by decide,
    Bool.false_eq_true, if_false, if_true]

/-- Helper: the reply of `_handle_model_command` for a non-empty name that is
not configured. -/
theorem handle_model_not_available (providers : List Provider)
    (users : List UserRecord) (uid args : String) (now : Nat)
    (h1 : pyLower (pyStrip args) ≠ "")
    (h2 : pyLower (pyStrip args) ∉ get_available providers) :
    handle_model_command providers users uid args now =
      ("❌ ใช้ " ++ pyLower (pyStrip args) ++ " ไม่ได้ — ยังไม่ได้ตั้งค่า API key\n✅ ใช้ได้: " ++
         String.intercalate ", " (get_available providers), users) := by
  have hq : (pyLower (pyStrip args) == "") = false := by
    rw [beq_eq_false_iff_ne]
    exact h1
  have hc : (get_available providers).contains (pyLower (pyStrip args)) = false := by
    simp [List.elem_eq_mem, h2]
  simp only [handle_model_command, hq, hc, Bool.not_false, Bool.false_eq_true,
    if_false, if_true]

/-- Helper: the users table returned by `_handle_model_command` — only a
configured, non-empty name updates it, and then exactly through
`update_user_preference` on `default_llm`. -/
theorem handle_model_snd (providers : List Provider) (users : List UserRecord)
    (uid args : String) (now : Nat) :
    (handle_model_command providers users uid args now).2 =
      if pyLower (pyStrip args) ≠ "" ∧
          pyLower (pyStrip args) ∈ get_available providers then
        update_user_preference users uid "default_llm" (pyLower (pyStrip args)) now
      else users := by
  by_cases hq : pyLower (pyStrip args) = ""
  · have hqb : (pyLower (pyStrip args) == "") = true := by simpa using hq
    simp only [handle_model_command, hqb, if_true]
    rw [if_neg (fun h => h.1 hq)]
  · have hqb : (pyLower (pyStrip args) == "") = false := by
      rw [beq_eq_false_iff_ne]
      exact hq
    by_cases hc : pyLower (pyStrip args) ∈ get_available providers
    · have hcb : (get_available providers).contains (pyLower (pyStrip args)) = true :=
        List.elem_iff.mpr hc
      simp only [handle_model_command, hqb, hcb, Bool.not_true, Bool.false_eq_true,
        if_false, set_preference]
      rw [if_pos ⟨hq, hc⟩]
    · have hcb : (get_available providers).contains (pyLower (pyStrip args)) = false := by
        simp [List.elem_eq_mem, hc]
      simp only [handle_model_command, hqb, hcb, Bool.not_false, Bool.false_eq_true,
        if_false, if_true]
      rw [if_neg (fun h => hc h.2)]

/-- C8: a `/model <name>` message whose normalised name is not among the
configured providers replies with the explicit not-available message listing
the configured options and leaves the whole store — in particular the user's
stored `default_llm` preference — unchanged; and any `/model` message that
does change the users table does so only for a configured name, and then
exactly by the whitelisted `default_llm` preference update. -/
theorem c8_model_not_available (env : DispatchEnv) (db : Db) (user_id : String)
    (user : UserRecord) (text args : String)
    (hparse : parse_command text = ("/model", args))
    (h1 : pyLower (pyStrip args) ≠ "")
    (h2 : pyLower (pyStrip args) ∉ get_available env.providers) :
    (dispatch env db user_id user text).reply =
      "❌ ใช้ " ++ pyLower (pyStrip args) ++ " ไม่ได้ — ยังไม่ได้ตั้งค่า API key\n✅ ใช้ได้: " ++
        String.intercalate ", " (get_available env.providers) ∧
    (dispatch env db user_id user text).db = db ∧
    (∀ text' args', parse_command text' = ("/model", args') →
       (dispatch env db user_id user text').db.users ≠ db.users →
       pyLower (pyStrip args') ∈ get_available env.providers ∧
       (dispatch env db user_id user text').db.users =
         update_user_preference db.users user_id "default_llm"
           (pyLower (pyStrip args')) env.now) := by
  have hna := handle_model_not_available env.providers db.users user_id args env.now h1 h2
  rw [dispatch_model_branch env db user_id user text args hparse]
  refine ⟨?_, ?_, ?_⟩
  · rw [hna]
  · rw [hna]
  · intro text' args' hp' hne
    rw [dispatch_model_branch env db user_id user text' args' hp'] at hne ⊢
    rw [handle_model_snd env.providers db.users user_id args' env.now] at hne ⊢
    by_cases hcond : pyLower (pyStrip args') ≠ "" ∧
        pyLower (pyStrip args') ∈ get_available env.providers
    · rw [if_pos hcond]
      exact ⟨hcond.2, rfl⟩
    · rw [if_neg hcond] at hne
      exact absurd rfl hne

/-- C8 witness: `/model geminix` with only `claude` configured replies with
the not-available message and leaves the store unchanged. -/
theorem c8_witness :
    (dispatch c8Env c8Db "u1" c8User "/model geminix").reply =
      "❌ ใช้ " ++ pyLower (pyStrip "geminix") ++ " ไม่ได้ — ยังไม่ได้ตั้งค่า API key\n✅ ใช้ได้: " ++
        String.intercalate ", " (get_available c8Env.providers) ∧
    (dispatch c8Env c8Db "u1" c8User "/model geminix").db = c8Db ∧
    (∀ text' args', parse_command text' = ("/model", args') →
       (dispatch c8Env c8Db "u1" c8User text').db.users ≠ c8Db.users →
       pyLower (pyStrip args') ∈ get_available c8Env.providers ∧
       (dispatch c8Env c8Db "u1" c8User text').db.users =
         update_user_preference c8Db.users "u1" "default_llm"
           (pyLower (pyStrip args')) c8Env.now) :=
  c8_model_not_available c8Env c8Db "u1" c8User "/model geminix" "geminix"
    (by decide) (by decide) (by decide)

/-! ### C4 — scheduled runs never update last_run_at -/

/-- C4 (code evaluation): a scheduled job run — successful or not — leaves the
schedules table, and in particular every entry's `last_run_at`, unchanged;
`update_schedule_last_run` is defined in `core/db.py` but no scheduler code
path calls it. -/
theorem c4_run_tool_schedules_unchanged (toolReg : ToolRegistry)
    (exec : String → String → ExecArgs → Except String String)
    (st : SchedState) (user_id chat_id tool_name args : String) (now : Nat) :
    (run_tool_for_user toolReg exec st user_id chat_id tool_name args now).schedules =
      st.schedules ∧
    update_schedule_last_run [⟨5, "u1", "email_summary", "0 7 * * *", "", true, none⟩] 5 now =
      [⟨5, "u1", "email_summary", "0 7 * * *", "", true, some now⟩] := by
  constructor
  · cases h1 : get_tool toolReg tool_name with
    | none => simp only [run_tool_for_user, h1]
    | some tool =>
      cases h2 : exec tool.name user_id (ExecArgs.direct args) with
      | ok r => simp only [run_tool_for_user, h1, h2]
      | error e => simp only [run_tool_for_user, h1, h2]
  · rfl

/-! ### C7 — direct command whose tool raises -/

/-- C7: when the parsed command is none of the reserved commands and maps to a
registered capability whose execution raises `e`, `dispatch` returns the
formatted failure message containing `e`, appends exactly one failed
`CapabilityInvocationLog` carrying `e` (truncated to the schema's 1000-char
bound), leaves the rest of the store untouched, makes no LLM call, reports
token cost 0, and executes the capability exactly once (no retry). -/
theorem c7_direct_command_failure (env : DispatchEnv) (db : Db) (user_id : String)
    (user : UserRecord) (text cmd args : String) (tool : Tool) (e : String)
    (hparse : parse_command text = (cmd, args))
    (hne : cmd ≠ "")
    (h1 : cmd ≠ "/help") (h2 : cmd ≠ "/model") (h3 : cmd ≠ "/adduser")
    (h4 : cmd ≠ "/removeuser") (h5 : cmd ≠ "/listusers") (h6 : cmd ≠ "/authgmail")
    (htool : get_by_command env.toolReg cmd = some tool)
    (hexec : env.exec tool.name user_id (ExecArgs.direct args) = Except.error e) :
    (dispatch env db user_id user text).reply = "เกิดข้อผิดพลาด: " ++ e ++ "\nกรุณาลองใหม่" ∧
    (dispatch env db user_id user text).db.tool_logs =
      db.tool_logs ++ [⟨user_id, tool.name, "", "", "", 0, "failed", pySlice e 1000, env.now⟩] ∧
    (dispatch env db user_id user text).db.users = db.users ∧
    (dispatch env db user_id user text).db.chat_history = db.chat_history ∧
    (dispatch env db user_id user text).db.schedules = db.schedules ∧
    (dispatch env db user_id user text).llm_calls = 0 ∧
    (dispatch env db user_id user text).token_used = 0 ∧
    (dispatch env db user_id user text).exec_calls = [(tool.name, ExecArgs.direct args)] := by
  have b1 : (cmd == "/help") = false := by rw [beq_eq_false_iff_ne]; exact h1
  have b2 : (cmd == "/model") = false := by rw [beq_eq_false_iff_ne]; exact h2
  have b3 : (cmd == "/adduser") = false := by rw [beq_eq_false_iff_ne]; exact h3
  have b4 : (cmd == "/removeuser") = false := by rw [beq_eq_false_iff_ne]; exact h4
  have b5 : (cmd == "/listusers") = false := by rw [beq_eq_false_iff_ne]; exact h5
  have b6 : (cmd == "/authgmail") = false := by rw [beq_eq_false_iff_ne]; exact h6
  have bne : (cmd != "") = true := by
    rw [bne_iff_ne]
    exact hne
  have hred : dispatch env db user_id user text =
      { reply := "เกิดข้อผิดพลาด: " ++ e ++ "\nกรุณาลองใหม่",
        tool_used := some tool.name, llm_model := none, token_used := 0,
        db := { db with tool_logs := log_tool_usage db.tool_logs user_id tool.name "" "" "" 0 "failed" e env.now },
        llm_calls := 0, exec_calls := [(tool.name, ExecArgs.direct args)] } := by
    unfold dispatch
    rw [hparse]
    simp only [b1, b2, b3, b4, b5, b6, Bool.false_eq_true, if_false, bne, if_true,
      htool, hexec]
  rw [hred]
  exact ⟨rfl, rfl, rfl, rfl, rfl, rfl, rfl, rfl⟩

/-- C7 witness: `/boom x` on a registry holding the failing tool. -/
theorem c7_witness :
    (dispatch c7Env c8Db "u1" c8User "/boom x").reply = "เกิดข้อผิดพลาด: " ++ "kaboom" ++ "\nกรุณาลองใหม่" ∧
    (dispatch c7Env c8Db "u1" c8User "/boom x").db.tool_logs =
      c8Db.tool_logs ++ [⟨"u1", c7Tool.name, "", "", "", 0, "failed", pySlice "kaboom" 1000, c7Env.now⟩] ∧
    (dispatch c7Env c8Db "u1" c8User "/boom x").db.users = c8Db.users ∧
    (dispatch c7Env c8Db "u1" c8User "/boom x").db.chat_history = c8Db.chat_history ∧
    (dispatch c7Env c8Db "u1" c8User "/boom x").db.schedules = c8Db.schedules ∧
    (dispatch c7Env c8Db "u1" c8User "/boom x").llm_calls = 0 ∧
    (dispatch c7Env c8Db "u1" c8User "/boom x").token_used = 0 ∧
    (dispatch c7Env c8Db "u1" c8User "/boom x").exec_calls = [(c7Tool.name, ExecArgs.direct "x")] :=
  c7_direct_command_failure c7Env c8Db "u1" c8User "/boom x" "/boom" "x" c7Tool "kaboom"
    (by decide) (by decide) (by decide) (by decide) (by decide) (by decide)
    (by decide) (by decide) (by decide) rfl

/-! ### C3 — missing direct_output default -/

/-- C3 (code evaluation): `BaseTool` never declares `direct_output`, so for a
capability that does not declare it (like the real `news_summary`), a
successful LLM-selected execution hits `AttributeError` at
`selected_tool.direct_output`; the dispatcher's tool-level except treats the
successful run as a failure — it logs a failed invocation carrying the
`AttributeError` text and replies with the failure message — and never reaches
the summarisation call (exactly one LLM call is made), contradicting the
spec's default-false summarisation path. -/
theorem c3_missing_direct_output :
    c3Tool.direct_output = none ∧
    c3Env.exec c3Tool.name "u1" (ExecArgs.kwargs []) = Except.ok "NEWS RESULT" ∧
    (dispatch c3Env c8Db "u1" c8User "ข่าววันนี้").reply =
      "เรียก news_summary ไม่สำเร็จ: " ++ direct_output_attr_err c3Tool ∧
    (dispatch c3Env c8Db "u1" c8User "ข่าววันนี้").llm_calls = 1 ∧
    (dispatch c3Env c8Db "u1" c8User "ข่าววันนี้").db.tool_logs =
      c8Db.tool_logs ++ [⟨"u1", "news_summary", "", "", "", 0, "failed",
        direct_output_attr_err c3Tool, c3Env.now⟩] ∧
    (dispatch c3Env c8Db "u1" c8User "ข่าววันนี้").exec_calls =
      [("news_summary", ExecArgs.kwargs [])] :=
  ⟨rfl, rfl, rfl, rfl, rfl, rfl⟩

/-! ### C6 — memory round-trip -/

/-- Helper: inserting a row older than everything in a sorted-descending list
appends it at the end. -/
theorem insertByCreatedDesc_append (r : ChatRow) :
    ∀ l : List ChatRow, (∀ x ∈ l, r.created_at < x.created_at) →
      insertByCreatedDesc r l = l ++ [r] := by
  intro l
  induction l with
  | nil => intro _; rfl
  | cons x xs ih =>
    intro h
    unfold insertByCreatedDesc
    rw [if_neg (Nat.not_le.mpr (h x (List.mem_cons_self x xs)))]
    rw [ih (fun y hy => h y (List.mem_cons_of_mem x hy))]
    rfl

/-- Helper: on a strictly increasing history the descending sort is exactly
the reverse of insertion order. -/
theorem sortByCreatedDesc_sorted :
    ∀ l : List ChatRow, l.Pairwise (fun a b => a.created_at < b.created_at) →
      sortByCreatedDesc l = l.reverse := by
  intro l
  induction l with
  | nil => intro _; rfl
  | cons x xs ih =>
    intro h
    rw [List.pairwise_cons] at h
    show insertByCreatedDesc x (sortByCreatedDesc xs) = (x :: xs).reverse
    rw [ih h.2, insertByCreatedDesc_append x xs.reverse
      (fun y hy => h.1 y (List.mem_reverse.mp hy)), List.reverse_cons]

/-- Helper: `rtake` commutes with `map`. -/
theorem rtake_map {α β : Type} (f : α → β) (l : List α) (n : Nat) :
    (l.map f).rtake n = (l.rtake n).map f := by
  simp [List.rtake, List.length_map, List.map_drop]

/-- Helper: on a strictly increasing history, `get_chat_context` is the last
`limit` rows of the user's history in insertion order, projected. -/
theorem get_chat_context_sorted (hist : List ChatRow) (uid : String) (N : Nat)
    (h : (hist.map ChatRow.created_at).Pairwise (· < ·)) :
    get_chat_context hist uid N =
      ((hist.filter (fun r => r.user_id == uid)).map
        (fun r => CtxRow.mk r.role r.content r.tool_used)).rtake N := by
  have h' : hist.Pairwise (fun a b => a.created_at < b.created_at) :=
    List.pairwise_map.mp h
  have hf : (hist.filter (fun r => r.user_id == uid)).Pairwise
      (fun a b => a.created_at < b.created_at) :=
    List.Pairwise.sublist (List.filter_sublist hist) h'
  unfold get_chat_context
  rw [sortByCreatedDesc_sorted _ hf, List.rtake_eq_reverse_take_reverse]
  simp [List.map_reverse, List.map_take]

/-- C6: after a `record` (`save_chat`) under strictly increasing write
timestamps, a `context` read with window `N ≥ 1` returns exactly the most
recent `N` turns of that user in chronological order (the last-`N` window of
the insertion-order projection to role and content, also when `N` is smaller
than the total history), and its last element reproduces the just-written
role and content. -/
theorem c6_memory_roundtrip (hist : List ChatRow) (uid role content : String)
    (tool llm : Option String) (tok : Option Nat) (now : Nat) (N : Nat)
    (hmono : ((hist.map ChatRow.created_at) ++ [now]).Pairwise (· < ·))
    (hN : 1 ≤ N) :
    get_context (save_chat hist uid role content tool llm tok now) uid N =
      (((save_chat hist uid role content tool llm tok now).filter
          (fun r => r.user_id == uid)).map
        (fun r => Msg.mk r.role r.content)).rtake N ∧
    (get_context (save_chat hist uid role content tool llm tok now) uid N).getLast? =
      some (Msg.mk role content) := by
  have hsave : save_chat hist uid role content tool llm tok now =
      hist ++ [⟨hist.length, uid, role, content, tool, llm, tok, now⟩] := rfl
  have hmap : ((save_chat hist uid role content tool llm tok now).map ChatRow.created_at)
      = (hist.map ChatRow.created_at) ++ [now] := by
    rw [hsave, List.map_append]
    rfl
  have hpc : ((save_chat hist uid role content tool llm tok now).map ChatRow.created_at).Pairwise
      (· < ·) := by
    rw [hmap]
    exact hmono
  have hctx := get_chat_context_sorted (save_chat hist uid role content tool llm tok now) uid N hpc
  have hmain : get_context (save_chat hist uid role content tool llm tok now) uid N =
      (((save_chat hist uid role content tool llm tok now).filter
          (fun r => r.user_id == uid)).map
        (fun r => Msg.mk r.role r.content)).rtake N := by
    unfold get_context
    rw [hctx, rtake_map, rtake_map, List.map_map]
    rfl
  refine ⟨hmain, ?_⟩
  rw [hmain]
  have hfilter : ((save_chat hist uid role content tool llm tok now).filter
      (fun r => r.user_id == uid)) =
      (hist.filter (fun r => r.user_id == uid)) ++
        [⟨hist.length, uid, role, content, tool, llm, tok, now⟩] := by
    rw [hsave, List.filter_append]
    simp
  rw [hfilter, List.map_append]
  obtain ⟨n, rfl⟩ : ∃ n, N = n + 1 := ⟨N - 1, (Nat.succ_pred_eq_of_pos hN).symm⟩
  simp only [List.map_cons, List.map_nil]
  rw [List.rtake_concat_succ, List.getLast?_concat]

/-- C6 witness: two turns for the user plus one foreign turn; a window of 2
returns the last two turns chronologically and ends with the newly recorded
one. -/
theorem c6_witness :
    get_context (save_chat [⟨0, "u1", "user", "hello", none, none, none, 1⟩,
        ⟨1, "u2", "user", "other", none, none, none, 2⟩,
        ⟨2, "u1", "assistant", "hi!", none, none, none, 3⟩] "u1" "user" "again" none none none 9) "u1" 2 =
      ((((save_chat [⟨0, "u1", "user", "hello", none, none, none, 1⟩,
        ⟨1, "u2", "user", "other", none, none, none, 2⟩,
        ⟨2, "u1", "assistant", "hi!", none, none, none, 3⟩] "u1" "user" "again" none none none 9).filter
          (fun r => r.user_id == "u1")).map (fun r => Msg.mk r.role r.content)).rtake 2) ∧
    (get_context (save_chat [⟨0, "u1", "user", "hello", none, none, none, 1⟩,
        ⟨1, "u2", "user", "other", none, none, none, 2⟩,
        ⟨2, "u1", "assistant", "hi!", none, none, none, 3⟩] "u1" "user" "again" none none none 9) "u1" 2).getLast? =
      some (Msg.mk "user" "again") :=
  c6_memory_roundtrip [⟨0, "u1", "user", "hello", none, none, none, 1⟩,
      ⟨1, "u2", "user", "other", none, none, none, 2⟩,
      ⟨2, "u1", "assistant", "hi!", none, none, none, 3⟩]
    "u1" "user" "again" none none none 9 2 (by decide) (by decide)

end OpenMiniCrew
